import Mathlib

/-!
Verification development for the presence and notification propagation
subsystem of the peer-learning platform (server half in `src/server.ts`,
client half in `src/App.tsx`, data types in `src/types.ts`).

The TypeScript sources are shallowly embedded: JavaScript `Map`s become
insertion-ordered association lists with JS `Map.set` semantics (updating
an existing key keeps its position, a fresh key is appended), JS
`undefined` values stored in a map become `Option`, and a thrown-and-caught
`TypeError` becomes `Except Unit`.
-/

namespace Presence

/-- The announced identity payload, `{id, name, avatar}` from `src/types.ts`
(`User`); the presence subsystem reads only these fields. Uniqueness key is
`id`. -/
structure User where
  id : String
  name : String
  avatar : String
deriving DecidableEq, Repr

/-- A transport connection handle (`WebSocket` object identity on the server). -/
abbrev Conn := Nat

/-- JS `Map.set` on an insertion-ordered association list: if the key is
present its value is updated in place (position preserved); otherwise the
pair is appended at the end. -/
def jsMapSet {κ α : Type} [DecidableEq κ] (m : List (κ × α)) (k : κ) (v : α) :
    List (κ × α) :=
  if m.any (fun p => p.1 = k) then
    m.map (fun p => if p.1 = k then (k, v) else p)
  else
    m ++ [(k, v)]

/-- JS `Map.delete`: removes the entry for the key if present. -/
def jsMapDelete {κ α : Type} [DecidableEq κ] (m : List (κ × α)) (k : κ) :
    List (κ × α) :=
  m.filter (fun p => p.1 ≠ k)

/-- Server state of `src/server.ts`: `activeUsers` is the
`Map<WebSocket, any>` registry mapping a connection to the `data.user`
value it announced (which is JS `undefined`, here `none`, when a
`USER_JOINED` message carried no `user` field), and `openConns` is the set
`wss.clients` restricted to sockets in the `OPEN` ready state. -/
structure ServerState where
  activeUsers : List (Conn × Option User)
  openConns : List Conn
deriving DecidableEq, Repr

/-- The `usersMap` loop of `broadcastPresence` (`src/server.ts` lines
43-46): iterate the registry values in insertion order, writing each into a
`Map` keyed by `user.id`; reading `user.id` off a JS `undefined` value
throws a `TypeError`, modelled by `Except.error ()`. The accumulator is the
`usersMap` built so far. -/
def buildUsersMap : List (Option User) → List (String × User) →
    Except Unit (List (String × User))
  | [], m => .ok m
  | none :: _, _ => .error ()
  | some u :: rest, m => buildUsersMap rest (jsMapSet m u.id u)

/-- `Array.from(usersMap.values())`: the deduplicated-by-id user list that
`broadcastPresence` serializes into the `PRESENCE_UPDATE` payload, or an
error if building the map threw. -/
def computeUsers (activeUsers : List (Conn × Option User)) :
    Except Unit (List User) :=
  (buildUsersMap (activeUsers.map (fun p => p.2)) []).map
    (fun m => m.map (fun p => p.2))

/-- `broadcastPresence` (`src/server.ts` lines 42-54): compute the
deduplicated user list once, then send the same payload to every currently
open client. Returns the list of (destination, payload) sends, or an error
if the snapshot computation threw before any send. -/
def broadcastPresence (st : ServerState) : Except Unit (List (Conn × List User)) :=
  (computeUsers st.activeUsers).map (fun users => st.openConns.map (fun c => (c, users)))

/-- An inbound frame after the transport layer hands it to the `message`
handler: either `JSON.parse` throws (`invalidJSON`), or it yields an object
whose `type` field is the given optional string and whose `user` field is
the given optional identity. -/
inductive RawMsg where
  | invalidJSON : RawMsg
  | parsed (ty : Option String) (user : Option User) : RawMsg
deriving DecidableEq, Repr

/-- Outcome of running one server event handler: the state afterwards, the
sends that were delivered, and whether an exception was caught by the
handler's `try`/`catch`. -/
structure HandleResult where
  state : ServerState
  sends : List (Conn × List User)
  caught : Bool
deriving DecidableEq, Repr

/-- The `ws.on("message")` handler (`src/server.ts` lines 24-35) for
connection `c`: on a `USER_JOINED` frame it stores `data.user` in the
registry and calls `broadcastPresence`; everything runs inside
`try`/`catch`, so a parse failure, or the `TypeError` thrown by
`broadcastPresence` when a registry value is `undefined`, is caught after
the registry mutation has already happened. Any other `type` is ignored. -/
def handleMessage (st : ServerState) (c : Conn) (msg : RawMsg) : HandleResult :=
  match msg with
  | .invalidJSON => ⟨st, [], true⟩
  | .parsed ty user =>
    if ty = some "USER_JOINED" then
      let st' : ServerState := { st with activeUsers := jsMapSet st.activeUsers c user }
      match broadcastPresence st' with
      | .ok sends => ⟨st', sends, false⟩
      | .error _ => ⟨st', [], true⟩
    else ⟨st, [], false⟩

/-- A registry mutation event: `register c u` is the effect of handling a
well-formed `USER_JOINED` from connection `c` (`activeUsers.set(ws,
data.user)`), `unregister c` is the `ws.on("close")` cleanup
(`activeUsers.delete(ws)`). -/
inductive HubEvent where
  | register (c : Conn) (u : User) : HubEvent
  | unregister (c : Conn) : HubEvent
deriving DecidableEq, Repr

/-- Apply one registry event to the `activeUsers` map. -/
def applyEvent (m : List (Conn × Option User)) : HubEvent → List (Conn × Option User)
  | .register c u => jsMapSet m c (some u)
  | .unregister c => jsMapDelete m c

/-- Run a sequence of register/unregister events from the empty registry the
server starts with. -/
def runEvents (es : List HubEvent) : List (Conn × Option User) :=
  es.foldl applyEvent []

/-! ### Client-side reconciliation (`src/App.tsx`, `ws.onmessage`) -/

/-- The users the `PRESENCE_UPDATE` handler notifies about (`src/App.tsx`
lines 54-65): nothing when the cached list `onlineUsersRef.current` is
empty (the "initial list" guard), otherwise every incoming user whose id
differs from the local user's and is absent from the cache. For each user
in this list the handler calls `addNotification` with the payload
`peerJoinedNotif`. -/
def notifiedUsers (me : User) (cache newUsers : List User) : List User :=
  if cache.length > 0 then
    newUsers.filter (fun u => u.id ≠ me.id ∧ ¬ cache.any (fun e => e.id = u.id))
  else []

/-- Process one `PRESENCE_UPDATE` snapshot: returns the users notified
about and the published new online list (`setOnlineUsers(newUsers)`, which
also becomes `onlineUsersRef.current` for the next message). -/
def processSnapshot (me : User) (cache newUsers : List User) :
    List User × List User :=
  (notifiedUsers me cache newUsers, newUsers)

/-- Process a sequence of snapshots in arrival order, starting from the
given cache: returns the per-snapshot notified-user lists and the final
cache. -/
def runSnapshots (me : User) : List User → List (List User) →
    List (List User) × List User
  | cache, [] => ([], cache)
  | cache, s :: rest =>
    let step := processSnapshot me cache s
    let next := runSnapshots me step.2 rest
    (step.1 :: next.1, next.2)

/-- Presence-relevant client lifecycle state: the cached online list
(`onlineUsers` / `onlineUsersRef`) and whether the local WebSocket is still
live (OPEN or CONNECTING). -/
structure PresenceClient where
  cache : List User
  wsLive : Bool
deriving DecidableEq, Repr

/-- The freshly-connected client: the presence effect opens a socket while
`onlineUsers` is the empty list. -/
def connectedClient : PresenceClient :=
  { cache := [], wsLive := true }

/-- The `ws.onerror` handler (`src/App.tsx` lines 74-76): it only calls
`console.error` — the socket is not closed and no state is touched. -/
def handleTransportError (st : PresenceClient) : PresenceClient :=
  st

/-- Effect of an explicit logout on the presence state: `handleLogout` sets
`currentUser` to `null`, so the presence effect re-runs — its cleanup
(`src/App.tsx` lines 78-82) closes the socket if it is OPEN or CONNECTING,
and the new effect body (lines 36-39) sets `onlineUsers` to the empty
list. -/
def handleLogout (_st : PresenceClient) : PresenceClient :=
  { cache := [], wsLive := false }

/-! ### Notification store (`src/App.tsx` and `src/types.ts`) -/

/-- `NotificationType` from `src/types.ts`. -/
inductive NotificationType where
  | message : NotificationType
  | session : NotificationType
  | upload : NotificationType
  | skill : NotificationType
deriving DecidableEq, Repr

/-- The optional `link` payload of a notification. -/
structure NotifLink where
  tab : Option String
  skillId : Option String
  contentId : Option String
deriving DecidableEq, Repr

/-- `AppNotification` from `src/types.ts`. -/
structure AppNotification where
  id : String
  userId : String
  type : NotificationType
  title : String
  message : String
  timestamp : String
  isRead : Bool
  link : Option NotifLink
deriving DecidableEq, Repr

/-- The argument of `addNotification`:
`Omit<AppNotification, 'id' | 'userId' | 'timestamp' | 'isRead'>`. -/
structure NotifDraft where
  type : NotificationType
  title : String
  message : String
  link : Option NotifLink := none
deriving DecidableEq, Repr

/-- The notification payload the presence handler builds for a newly seen
peer `u` (`src/App.tsx` lines 58-63). -/
def peerJoinedNotif (u : User) : NotifDraft :=
  { type := .message
    title := "Peer Connected"
    message := u.name ++ " has joined the peer network." }

/-- The slice of the `AppData` state (`src/store.ts`) that the notification
operations read and write: the logged-in user and the single global
notification list. -/
structure AppData where
  currentUser : Option User
  notifications : List AppNotification
deriving DecidableEq, Repr

/-- `addNotification` (`src/App.tsx` lines 206-216): a no-op when nobody is
logged in; otherwise stamps `id = 'n' + Date.now()`, the owner, a
timestamp rendered from the same clock reading `now`, marks the entry
unread and prepends it. -/
def addNotification (d : AppData) (now : Nat) (notif : NotifDraft) : AppData :=
  match d.currentUser with
  | none => d
  | some cu =>
    { d with notifications :=
        { id := "n" ++ toString now
          userId := cu.id
          type := notif.type
          title := notif.title
          message := notif.message
          timestamp := toString now
          isRead := false
          link := notif.link } :: d.notifications }

/-- `markNotificationAsRead` (`src/App.tsx` lines 218-223): flips `isRead`
on every entry whose id matches. -/
def markNotificationAsRead (d : AppData) (id : String) : AppData :=
  { d with notifications :=
      d.notifications.map (fun n => if n.id = id then { n with isRead := true } else n) }

/-- `clearNotifications` (`src/App.tsx` lines 225-227): replaces the whole
notification list with the empty list. -/
def clearNotifications (d : AppData) : AppData :=
  { d with notifications := [] }

/-- The unread badge count (`src/App.tsx` line 423): entries with
`isRead = false`. -/
def unreadNotifications (d : AppData) : Nat :=
  (d.notifications.filter (fun n => ¬ n.isRead)).length

/-! ### Concrete users and states used in witnesses and counterexamples -/

/-- A concrete identity used in witnesses and counterexamples. -/
def uAlice : User := { id := "a", name := "Alice", avatar := "av-a" }

/-- A concrete identity used in witnesses and counterexamples. -/
def uBob : User := { id := "b", name := "Bob", avatar := "av-b" }

/-- A concrete identity used in witnesses and counterexamples. -/
def uCara : User := { id := "c", name := "Cara", avatar := "av-c" }

/-- A concrete identity used in witnesses and counterexamples. -/
def uDave : User := { id := "d", name := "Dave", avatar := "av-d" }

/-- A second connection announcing the same id as `uAlice` (duplicate tab). -/
def uAliceTab : User := { id := "a", name := "Alice2", avatar := "av-a2" }

/-- A concrete notification owned by `uBob`, used in the `ClearAll`
counterexample. -/
def notifOwnedByBob : AppNotification :=
  { id := "n1", userId := "b", type := .message, title := "t", message := "m",
    timestamp := "0", isRead := false, link := none }

/-- A concrete store state: Alice is logged in while a notification owned
by Bob sits in the global list. -/
def dataWithBobNotif : AppData :=
  { currentUser := some uAlice, notifications := [notifOwnedByBob] }

/-! ### Lemmas about the server's deduplicating user map -/

/-- Strengthen a pairwise relation using membership of both endpoints. -/
theorem pairwise_imp_of_mem {α : Type} {R S : α → α → Prop} :
    ∀ {l : List α}, (∀ a ∈ l, ∀ b ∈ l, R a b → S a b) → l.Pairwise R → l.Pairwise S := by
  intro l h hp
  induction hp with
  | nil => exact .nil
  | @cons a l2 hhead _htail ih =>
    refine .cons (fun b hb => h a (by simp) b (by simp [hb]) (hhead b hb)) ?_
    exact ih (fun x hx y hy => h x (by simp [hx]) y (by simp [hy]))

/-- The entry just written by `jsMapSet` is in the resulting map. -/
theorem jsMapSet_self_mem {κ α : Type} [DecidableEq κ] (m : List (κ × α)) (k : κ) (v : α) :
    (k, v) ∈ jsMapSet m k v := by
  unfold jsMapSet
  by_cases h : m.any (fun p => p.1 = k)
  · rw [if_pos h]
    simp only [List.any_eq_true, decide_eq_true_eq] at h
    obtain ⟨p, hpm, hpk⟩ := h
    exact List.mem_map.mpr ⟨p, hpm, by rw [if_pos hpk]⟩
  · rw [if_neg h]
    exact List.mem_append.mpr (Or.inr (by simp))

/-- `jsMapSet` never removes a key: any key present before is present after. -/
theorem jsMapSet_key_mono {κ α : Type} [DecidableEq κ] (m : List (κ × α)) (k d : κ) (v : α)
    (h : ∃ q ∈ m, q.1 = d) : ∃ q ∈ jsMapSet m k v, q.1 = d := by
  obtain ⟨q, hq, hqd⟩ := h
  unfold jsMapSet
  by_cases hc : m.any (fun p => p.1 = k)
  · rw [if_pos hc]
    by_cases hqk : q.1 = k
    · exact ⟨(k, v), List.mem_map.mpr ⟨q, hq, by rw [if_pos hqk]⟩, by rw [← hqk, hqd]⟩
    · exact ⟨q, List.mem_map.mpr ⟨q, hq, by rw [if_neg hqk]⟩, hqd⟩
  · rw [if_neg hc]
    exact ⟨q, List.mem_append.mpr (Or.inl hq), hqd⟩

/-- A property of all stored values is preserved by `jsMapSet` when the new
value satisfies it. -/
theorem jsMapSet_forall_values {κ α : Type} [DecidableEq κ] (m : List (κ × α)) (k : κ) (v : α)
    (P : α → Prop) (hm : ∀ p ∈ m, P p.2) (hv : P v) :
    ∀ p ∈ jsMapSet m k v, P p.2 := by
  intro p hp
  unfold jsMapSet at hp
  by_cases hc : m.any (fun p => p.1 = k)
  · rw [if_pos hc] at hp
    obtain ⟨q, hq, hfq⟩ := List.mem_map.mp hp
    by_cases hqk : q.1 = k
    · rw [if_pos hqk] at hfq
      rw [← hfq]
      exact hv
    · rw [if_neg hqk] at hfq
      rw [← hfq]
      exact hm q hq
  · rw [if_neg hc] at hp
    rcases List.mem_append.mp hp with hin | hin
    · exact hm p hin
    · simp at hin
      rw [hin]
      exact hv

/-- Writing `u` under its own id keeps the map well formed: keys stay
pairwise distinct and every key stays equal to its value's id. -/
theorem jsMapSet_wf (m : List (String × User)) (u : User)
    (hp : m.Pairwise (fun a b => a.1 ≠ b.1))
    (hk : ∀ p ∈ m, p.1 = p.2.id) :
    (jsMapSet m u.id u).Pairwise (fun a b => a.1 ≠ b.1) ∧
    ∀ p ∈ jsMapSet m u.id u, p.1 = p.2.id := by
  unfold jsMapSet
  by_cases hc : m.any (fun p => p.1 = u.id)
  · rw [if_pos hc]
    have hfst : ∀ p : String × User,
        ((if p.1 = u.id then (u.id, u) else p) : String × User).1 = p.1 := by
      intro p
      by_cases hq : p.1 = u.id
      · rw [if_pos hq, hq]
      · rw [if_neg hq]
    constructor
    · rw [List.pairwise_map]
      exact hp.imp (fun {a b} hab => by rw [hfst a, hfst b]; exact hab)
    · intro p hpm
      obtain ⟨q, hq, hfq⟩ := List.mem_map.mp hpm
      by_cases hqk : q.1 = u.id
      · rw [if_pos hqk] at hfq
        rw [← hfq]
      · rw [if_neg hqk] at hfq
        rw [← hfq]
        exact hk q hq
  · rw [if_neg hc]
    simp only [List.any_eq_true, decide_eq_true_eq, not_exists, not_and] at hc
    constructor
    · rw [List.pairwise_append]
      refine ⟨hp, by simp, ?_⟩
      intro a ha b hb
      simp at hb
      rw [hb]
      simpa using fun h => hc a ha h
    · intro p hpm
      rcases List.mem_append.mp hpm with hin | hin
      · exact hk p hin
      · simp at hin
        rw [hin]

/-- `buildUsersMap` preserves map well-formedness: if it returns without
throwing, the result has pairwise-distinct keys, each equal to its value's
id. -/
theorem buildUsersMap_wf :
    ∀ (l : List (Option User)) (m m2 : List (String × User)),
    m.Pairwise (fun a b => a.1 ≠ b.1) → (∀ p ∈ m, p.1 = p.2.id) →
    buildUsersMap l m = .ok m2 →
    m2.Pairwise (fun a b => a.1 ≠ b.1) ∧ ∀ p ∈ m2, p.1 = p.2.id := by
  intro l
  induction l with
  | nil =>
    intro m m2 hp hk h
    obtain rfl : m = m2 := by simpa [buildUsersMap] using h
    exact ⟨hp, hk⟩
  | cons x rest ih =>
    intro m m2 hp hk h
    cases x with
    | none => simp [buildUsersMap] at h
    | some u =>
      obtain ⟨hp2, hk2⟩ := jsMapSet_wf m u hp hk
      exact ih (jsMapSet m u.id u) m2 hp2 hk2 h

/-- `buildUsersMap` never removes a key present in the accumulator. -/
theorem buildUsersMap_key_mono :
    ∀ (l : List (Option User)) (m m2 : List (String × User)) (d : String),
    buildUsersMap l m = .ok m2 → (∃ q ∈ m, q.1 = d) → ∃ q ∈ m2, q.1 = d := by
  intro l
  induction l with
  | nil =>
    intro m m2 d h hd
    obtain rfl : m = m2 := by simpa [buildUsersMap] using h
    exact hd
  | cons x rest ih =>
    intro m m2 d h hd
    cases x with
    | none => simp [buildUsersMap] at h
    | some u => exact ih _ m2 d h (jsMapSet_key_mono m u.id d u hd)

/-- Every announced user in the iterated list ends up, by id, in the map
`buildUsersMap` returns. -/
theorem buildUsersMap_key_of_mem :
    ∀ (l : List (Option User)) (m m2 : List (String × User)) (u : User),
    buildUsersMap l m = .ok m2 → some u ∈ l → ∃ q ∈ m2, q.1 = u.id := by
  intro l
  induction l with
  | nil =>
    intro m m2 u _h hmem
    simp at hmem
  | cons x rest ih =>
    intro m m2 u h hmem
    cases x with
    | none => simp [buildUsersMap] at h
    | some w =>
      rcases List.mem_cons.mp hmem with heq | hin
      · have hw : w = u := by simpa using heq.symm
        exact buildUsersMap_key_mono rest _ m2 u.id h
          ⟨(w.id, w), jsMapSet_self_mem m w.id w, by rw [hw]⟩
      · exact ih _ m2 u h hin

/-- When every registry value is defined, building the user map does not
throw. -/
theorem buildUsersMap_ok :
    ∀ (l : List (Option User)) (m : List (String × User)),
    (∀ x ∈ l, x ≠ none) → ∃ m2, buildUsersMap l m = .ok m2 := by
  intro l
  induction l with
  | nil => exact fun m _ => ⟨m, rfl⟩
  | cons x rest ih =>
    intro m hl
    cases x with
    | none => exact absurd rfl (hl none (by simp))
    | some u => exact ih (jsMapSet m u.id u) (fun x hx => hl x (by simp [hx]))

/-- A JS-`undefined` registry value makes the user-map construction throw. -/
theorem buildUsersMap_error_of_none :
    ∀ (l : List (Option User)) (m : List (String × User)),
    none ∈ l → buildUsersMap l m = .error () := by
  intro l
  induction l with
  | nil =>
    intro m hmem
    simp at hmem
  | cons x rest ih =>
    intro m hmem
    cases x with
    | none => rfl
    | some u =>
      rcases List.mem_cons.mp hmem with heq | hin
      · exact absurd heq.symm (by simp)
      · exact ih _ hin

/-! ### Theorems -/

/-- Claim C1. First-snapshot silence: a freshly connected client has an empty
cached online list, so processing its first `PRESENCE_UPDATE` snapshot `S`
— whatever the number of pre-existing peers in `S` — notifies about nobody
and publishes `S` as the current online set (which becomes the new cache). -/
theorem claim_C1_first_snapshot_silence (me : User) (S : List User) :
    connectedClient.cache = [] ∧
    processSnapshot me connectedClient.cache S = ([], S) := by
  refine ⟨rfl, ?_⟩
  simp [connectedClient, processSnapshot, notifiedUsers]

/-- Claim C3. New-arrival detection: with cache `[A, B]` (both distinct from the
local user), the snapshot `[A, B, C]` notifies exactly once, about `C`, with
the peer-joined payload built from `C`, and publishes `[A, B, C]` as the
new cache. -/
theorem claim_C3_new_arrival (me A B C : User)
    (hA : A.id ≠ me.id) (hB : B.id ≠ me.id) (hC : C.id ≠ me.id)
    (hCA : C.id ≠ A.id) (hCB : C.id ≠ B.id) :
    notifiedUsers me [A, B] [A, B, C] = [C] ∧
    (notifiedUsers me [A, B] [A, B, C]).map peerJoinedNotif = [peerJoinedNotif C] ∧
    processSnapshot me [A, B] [A, B, C] = ([C], [A, B, C]) := by
  have h1 : notifiedUsers me [A, B] [A, B, C] = [C] := by
    simp [notifiedUsers, List.filter, hC, Ne.symm hCA, Ne.symm hCB]
  exact ⟨h1, by rw [h1]; rfl, by simp [processSnapshot, h1]⟩

/-- Claim C3 witness at concrete users. -/
theorem claim_C3_new_arrival_witness :
    notifiedUsers uAlice [uBob, uCara] [uBob, uCara, uDave] = [uDave] ∧
    (notifiedUsers uAlice [uBob, uCara] [uBob, uCara, uDave]).map peerJoinedNotif
      = [peerJoinedNotif uDave] ∧
    processSnapshot uAlice [uBob, uCara] [uBob, uCara, uDave]
      = ([uDave], [uBob, uCara, uDave]) :=
  claim_C3_new_arrival uAlice uBob uCara uDave
    (by decide) (by decide) (by decide) (by decide) (by decide)

/-- Claim C4. Re-join detection: starting from a fresh connection, the snapshot
sequence `[A, B]`, `[A]`, `[A, B]` notifies about nobody at the first two
snapshots and exactly about `B` at the third, ending with cache `[A, B]`. -/
theorem claim_C4_rejoin (me A B : User)
    (hA : A.id ≠ me.id) (hB : B.id ≠ me.id) (hAB : A.id ≠ B.id) :
    runSnapshots me [] [[A, B], [A], [A, B]] = ([[], [], [B]], [A, B]) := by
  simp [runSnapshots, processSnapshot, notifiedUsers, List.filter,
    hB, Ne.symm hAB, hAB]

/-- Claim C4 witness at concrete users. -/
theorem claim_C4_rejoin_witness :
    runSnapshots uAlice [] [[uBob, uCara], [uBob], [uBob, uCara]]
      = ([[], [], [uCara]], [uBob, uCara]) :=
  claim_C4_rejoin uAlice uBob uCara (by decide) (by decide) (by decide)

/-- Claim C10. The "first snapshot" test is cache emptiness: processing any
snapshot while the cached list is empty — in particular the snapshot right
after an earlier `PRESENCE_UPDATE` whose user list was empty, from any
prior cache — notifies about nobody and publishes the incoming snapshot as
the new cache. -/
theorem claim_C10_empty_cache_is_initial (me : User) (prevCache S : List User) :
    notifiedUsers me [] S = [] ∧
    (processSnapshot me prevCache []).2 = [] ∧
    runSnapshots me prevCache [[], S] = ([notifiedUsers me prevCache [], []], S) := by
  refine ⟨by simp [notifiedUsers], rfl, ?_⟩
  simp [runSnapshots, processSnapshot, notifiedUsers]

/-- Claim C7 counterexample: a transport error leaves a client with a non-empty
cache and a live socket exactly as it was — the cached online set does not
become empty and the transport is not torn down, contrary to the claim. -/
theorem claim_C7_counterexample :
    handleTransportError { cache := [uBob], wsLive := true }
        = { cache := [uBob], wsLive := true } ∧
    (handleTransportError { cache := [uBob], wsLive := true }).cache ≠ [] ∧
    (handleTransportError { cache := [uBob], wsLive := true }).wsLive = true := by
  decide

/-- Claim C7 amended: on explicit logout the client closes the transport and
resets the cached online set to empty, so the next snapshot after a
reconnect notifies about nobody; a transport error, by contrast, only logs
and changes nothing. -/
theorem claim_C7_logout_resets (st : PresenceClient) (me : User) (S : List User) :
    handleLogout st = { cache := [], wsLive := false } ∧
    processSnapshot me (handleLogout st).cache S = ([], S) ∧
    handleTransportError st = st := by
  exact ⟨rfl, by simp [handleLogout, processSnapshot, notifiedUsers], rfl⟩

/-- Claim C8 counterexample: with Alice as the current owner and a notification
owned by Bob in the store, `clearNotifications` deletes Bob's notification
too — entries owned by a different user are not preserved. -/
theorem claim_C8_counterexample :
    (clearNotifications dataWithBobNotif).notifications.filter
        (fun n => n.userId = "b") = [] ∧
    dataWithBobNotif.notifications.filter (fun n => n.userId = "b") ≠ [] := by
  decide

/-- Claim C8 amended: `clearNotifications` empties the entire notification list,
for every owner — notifications whose `userId` is a different user are
removed along with the current owner's (the logged-in user itself is
untouched). -/
theorem claim_C8_clear_all_global (d : AppData) :
    (clearNotifications d).notifications = [] ∧
    (clearNotifications d).currentUser = d.currentUser :=
  ⟨rfl, rfl⟩

/-- Claim C2. Dedup invariant: after any sequence of register (`USER_JOINED`
handling) and unregister (connection close) events, the broadcast snapshot
the hub computes never holds two entries with the same id. -/
theorem claim_C2_dedup_invariant (es : List HubEvent) (users : List User)
    (h : computeUsers (runEvents es) = .ok users) :
    users.Pairwise (fun a b => a.id ≠ b.id) := by
  unfold computeUsers at h
  cases hb : buildUsersMap ((runEvents es).map (fun p => p.2)) [] with
  | error e =>
    rw [hb] at h
    simp [Except.map] at h
  | ok m2 =>
    rw [hb] at h
    simp only [Except.map, Except.ok.injEq] at h
    obtain ⟨hp, hk⟩ := buildUsersMap_wf _ [] m2 (by simp) (by simp) hb
    rw [← h, List.pairwise_map]
    refine pairwise_imp_of_mem (R := fun a b => a.1 ≠ b.1) ?_ hp
    intro a ha b hb2 hab
    rw [← hk a ha, ← hk b hb2]
    exact hab

/-- Claim C2 witness: two connections announce the same id "a" and a third
announces "b"; the computed snapshot keeps a single "a" entry. -/
theorem claim_C2_dedup_invariant_witness :
    ([uAliceTab, uCara] : List User).Pairwise (fun a b => a.id ≠ b.id) :=
  claim_C2_dedup_invariant
    [.register 0 uAlice, .register 1 uAliceTab, .register 2 uCara]
    [uAliceTab, uCara] (by rfl)

/-- Claim C5. No-self-exclusion: when a connection `c` that is currently open
announces `USER_JOINED u` and every registry value is well defined, the
resulting broadcast goes to every open connection — `c` included — and the
snapshot it carries holds an entry with `u`'s id. -/
theorem claim_C5_no_self_exclusion (st : ServerState) (c : Conn) (u : User)
    (hopen : c ∈ st.openConns)
    (hwf : ∀ p ∈ st.activeUsers, p.2 ≠ none) :
    ∃ users,
      (handleMessage st c (.parsed (some "USER_JOINED") (some u))).sends
        = st.openConns.map (fun d => (d, users)) ∧
      (c, users) ∈ (handleMessage st c (.parsed (some "USER_JOINED") (some u))).sends ∧
      ∃ v ∈ users, v.id = u.id := by
  have hwfA : ∀ p ∈ jsMapSet st.activeUsers c (some u), p.2 ≠ none :=
    jsMapSet_forall_values st.activeUsers c (some u) (fun x => x ≠ none) hwf (by simp)
  have hvals : ∀ x ∈ (jsMapSet st.activeUsers c (some u)).map (fun p => p.2), x ≠ none := by
    intro x hx
    obtain ⟨p, hp, hrw⟩ := List.mem_map.mp hx
    rw [← hrw]
    exact hwfA p hp
  obtain ⟨m2, hb⟩ := buildUsersMap_ok _ [] hvals
  have hcu : computeUsers (jsMapSet st.activeUsers c (some u))
      = .ok (m2.map (fun p => p.2)) := by
    unfold computeUsers
    rw [hb]
    rfl
  have hmsg : handleMessage st c (.parsed (some "USER_JOINED") (some u))
      = ⟨{ st with activeUsers := jsMapSet st.activeUsers c (some u) },
          st.openConns.map (fun d => (d, m2.map (fun p => p.2))), false⟩ := by
    simp only [handleMessage, broadcastPresence, if_pos rfl, hcu, Except.map,
      eq_self_iff_true, if_true]
  refine ⟨m2.map (fun p => p.2), by rw [hmsg], ?_, ?_⟩
  · rw [hmsg]
    exact List.mem_map.mpr ⟨c, hopen, rfl⟩
  · have hmem : some u ∈ (jsMapSet st.activeUsers c (some u)).map (fun p => p.2) :=
      List.mem_map.mpr ⟨(c, some u), jsMapSet_self_mem st.activeUsers c (some u), rfl⟩
    obtain ⟨q, hq, hqid⟩ := buildUsersMap_key_of_mem _ [] m2 u hb hmem
    obtain ⟨_, hk⟩ := buildUsersMap_wf _ [] m2 (by simp) (by simp) hb
    exact ⟨q.2, List.mem_map.mpr ⟨q, hq, rfl⟩, by rw [← hk q hq, hqid]⟩

/-- Claim C5 witness: Bob is already registered on open connection 0; Alice
announces on open connection 1 and the broadcast reaches both connections
with a snapshot carrying Alice's id. -/
theorem claim_C5_no_self_exclusion_witness :
    ∃ users,
      (handleMessage { activeUsers := [(0, some uBob)], openConns := [0, 1] } 1
          (.parsed (some "USER_JOINED") (some uAlice))).sends
        = ([0, 1] : List Conn).map (fun d => (d, users)) ∧
      ((1 : Conn), users) ∈
        (handleMessage { activeUsers := [(0, some uBob)], openConns := [0, 1] } 1
          (.parsed (some "USER_JOINED") (some uAlice))).sends ∧
      ∃ v ∈ users, v.id = uAlice.id :=
  claim_C5_no_self_exclusion
    { activeUsers := [(0, some uBob)], openConns := [0, 1] } 1 uAlice
    (by decide) (by decide)

/-- Claim C6 counterexample: with Alice registered on connection 0 and both
connections open, a `USER_JOINED` frame from connection 1 that carries no
`user` field mutates the registry — an `undefined` entry for connection 1
appears — while no broadcast is delivered and the thrown `TypeError` is
caught; the claim's "the registry is unchanged" fails. -/
theorem claim_C6_counterexample :
    (handleMessage { activeUsers := [(0, some uAlice)], openConns := [0, 1] } 1
        (.parsed (some "USER_JOINED") none)).state.activeUsers
      ≠ [(0, some uAlice)] ∧
    (handleMessage { activeUsers := [(0, some uAlice)], openConns := [0, 1] } 1
        (.parsed (some "USER_JOINED") none)).sends = [] ∧
    (handleMessage { activeUsers := [(0, some uAlice)], openConns := [0, 1] } 1
        (.parsed (some "USER_JOINED") none)).caught = true := by
  decide

/-- Claim C6 amended: frames that fail to parse as JSON and frames with any other
`type` value are dropped silently — state unchanged, no broadcast, no
exception escaping the handler. A `USER_JOINED` frame missing the `user`
payload, however, still writes an `undefined` entry for that connection
into the registry; the snapshot computation then throws, so no broadcast is
delivered and the exception is caught by the handler. -/
theorem claim_C6_malformed_handling (st : ServerState) (c : Conn) :
    handleMessage st c .invalidJSON = ⟨st, [], true⟩ ∧
    (∀ (ty : Option String) (user : Option User), ty ≠ some "USER_JOINED" →
      handleMessage st c (.parsed ty user) = ⟨st, [], false⟩) ∧
    (handleMessage st c (.parsed (some "USER_JOINED") none)).state.activeUsers
      = jsMapSet st.activeUsers c none ∧
    (handleMessage st c (.parsed (some "USER_JOINED") none)).sends = [] ∧
    (handleMessage st c (.parsed (some "USER_JOINED") none)).caught = true := by
  have hbr : broadcastPresence { st with activeUsers := jsMapSet st.activeUsers c none }
      = .error () := by
    unfold broadcastPresence computeUsers
    rw [buildUsersMap_error_of_none _ []
      (List.mem_map.mpr ⟨(c, none), jsMapSet_self_mem st.activeUsers c none, rfl⟩)]
    rfl
  have hmsg : handleMessage st c (.parsed (some "USER_JOINED") none)
      = ⟨{ st with activeUsers := jsMapSet st.activeUsers c none }, [], true⟩ := by
    simp only [handleMessage, if_pos rfl, hbr, eq_self_iff_true, if_true]
  refine ⟨rfl, ?_, by rw [hmsg], by rw [hmsg], by rw [hmsg]⟩
  intro ty user hty
  simp only [handleMessage, if_neg hty]

/-- Claim C6 witness for the amended statement: an unparseable frame and a frame
of type "PING" from connection 1 leave the state of the two-connection hub
untouched with no sends, while a `USER_JOINED` frame with no user payload
appends an `undefined` registry entry for connection 1. -/
theorem claim_C6_malformed_handling_witness :
    handleMessage { activeUsers := [(0, some uAlice)], openConns := [0, 1] } 1 .invalidJSON
      = ⟨{ activeUsers := [(0, some uAlice)], openConns := [0, 1] }, [], true⟩ ∧
    handleMessage { activeUsers := [(0, some uAlice)], openConns := [0, 1] } 1
        (.parsed (some "PING") none)
      = ⟨{ activeUsers := [(0, some uAlice)], openConns := [0, 1] }, [], false⟩ ∧
    (handleMessage { activeUsers := [(0, some uAlice)], openConns := [0, 1] } 1
        (.parsed (some "USER_JOINED") none)).state.activeUsers
      = jsMapSet [(0, some uAlice)] 1 none := by
  obtain ⟨h1, h2, h3, _h4, _h5⟩ :=
    claim_C6_malformed_handling { activeUsers := [(0, some uAlice)], openConns := [0, 1] } 1
  exact ⟨h1, h2 (some "PING") none (by decide), h3⟩

/-- Claim C9. Unread count: from an empty list, three `addNotification` calls at
pairwise-distinct clock readings followed by `markNotificationAsRead` on
any one of the three stamped ids leave exactly 2 unread entries, and a
subsequent `clearNotifications` leaves 0. -/
theorem claim_C9_unread_count (cu : User) (t1 t2 t3 k : Nat)
    (n1 n2 n3 : NotifDraft)
    (h12 : ("n" ++ toString t1 : String) ≠ "n" ++ toString t2)
    (h13 : ("n" ++ toString t1 : String) ≠ "n" ++ toString t3)
    (h23 : ("n" ++ toString t2 : String) ≠ "n" ++ toString t3)
    (hk : k = t1 ∨ k = t2 ∨ k = t3) :
    unreadNotifications
      (markNotificationAsRead
        (addNotification (addNotification (addNotification
          { currentUser := some cu, notifications := [] } t1 n1) t2 n2) t3 n3)
        ("n" ++ toString k)) = 2 ∧
    unreadNotifications
      (clearNotifications
        (markNotificationAsRead
          (addNotification (addNotification (addNotification
            { currentUser := some cu, notifications := [] } t1 n1) t2 n2) t3 n3)
          ("n" ++ toString k))) = 0 := by
  refine ⟨?_, by simp [unreadNotifications, clearNotifications]⟩
  rcases hk with rfl | rfl | rfl
  · simp [addNotification, markNotificationAsRead, unreadNotifications,
      Ne.symm h12, Ne.symm h13]
  · simp [addNotification, markNotificationAsRead, unreadNotifications,
      h12, Ne.symm h23]
  · simp [addNotification, markNotificationAsRead, unreadNotifications,
      h13, h23]

/-- Claim C9 witness at clock readings 1, 2, 3, marking the id stamped at 1. -/
theorem claim_C9_unread_count_witness :
    unreadNotifications
      (markNotificationAsRead
        (addNotification (addNotification (addNotification
          { currentUser := some uAlice, notifications := [] } 1 (peerJoinedNotif uBob))
          2 (peerJoinedNotif uCara)) 3 (peerJoinedNotif uDave))
        ("n" ++ toString 1)) = 2 ∧
    unreadNotifications
      (clearNotifications
        (markNotificationAsRead
          (addNotification (addNotification (addNotification
            { currentUser := some uAlice, notifications := [] } 1 (peerJoinedNotif uBob))
            2 (peerJoinedNotif uCara)) 3 (peerJoinedNotif uDave))
          ("n" ++ toString 1))) = 0 :=
  claim_C9_unread_count uAlice 1 2 3 1
    (peerJoinedNotif uBob) (peerJoinedNotif uCara) (peerJoinedNotif uDave)
    (by decide) (by decide) (by decide) (Or.inl rfl)

end Presence
